import Mathlib

/-!
Verification of the geometric-construction language implemented in `src/main.py`:
a regex-based lexer (`Lexer.tokenize`) over a fixed Ukrainian vocabulary and a
recursive-descent parser (`Parser`) that builds a scene of points, rectangles,
triangles and line segments.

The Python source is shallowly embedded: text is a `List Char`, every regex of
the lexer becomes an executable scanner over character lists, the parser's
mutable cursor/registry state becomes an explicit `Parser` structure threaded
through `Except`-valued functions, and Python floats are modelled as exact
rationals (all coordinate arithmetic in the claims is on small literals, where
`float` arithmetic is exact).  Python's `random.uniform` draws are modelled by
an injected oracle `rand : Nat → ℚ × ℚ` consulted in order.
-/

namespace GeoScene

/-- Token kinds, exactly the thirteen categories of `Lexer.tokenize`. -/
inductive TokType
  | PLACE | POINT | BUILD | RECTANGLE | TRIANGLE | CONNECT | LINE
  | ID | LPAREN | RPAREN | COMMA | NUMBER | DOT
deriving DecidableEq, Repr

/-- Python's `\w` (Unicode word character), restricted to the character
repertoire of the recognized vocabulary: ASCII letters, digits, underscore and
the Cyrillic block U+0400–U+04FF. -/
def isWordChar (c : Char) : Bool :=
  ('A' ≤ c && c ≤ 'Z') || ('a' ≤ c && c ≤ 'z') || ('0' ≤ c && c ≤ '9') ||
  (c == '_') || (0x400 ≤ c.toNat && c.toNat ≤ 0x4FF)

/-- The `\b` assertion at a match start: the previous character (`none` at the
start of the text) is not a word character. -/
def prevNonWord : Option Char → Bool
  | none => true
  | some c => !(isWordChar c)

/-- The `\b` assertion at a match end: the following character (if any) is not
a word character. -/
def boundaryAfterOk : List Char → Bool
  | [] => true
  | c :: _ => !(isWordChar c)

/-- Alternatives of `\bПостав(ити|лено|те)\b`, in the regex's order. -/
def placeAlts : List (List Char) :=
  ["Поставити".toList, "Поставлено".toList, "Поставте".toList]

/-- Alternatives of `\bточк(у|а|ою|и)\b`. -/
def pointAlts : List (List Char) :=
  ["точку".toList, "точка".toList, "точкою".toList, "точки".toList]

/-- Alternatives of `\b(Побуд(увати|уйте|ова))\b`. -/
def buildAlts : List (List Char) :=
  ["Побудувати".toList, "Побудуйте".toList, "Побудова".toList]

/-- Alternatives of `\bпрямокутн(ик|ика|ику|иком|и)\b`. -/
def rectAlts : List (List Char) :=
  ["прямокутник".toList, "прямокутника".toList, "прямокутнику".toList,
   "прямокутником".toList, "прямокутни".toList]

/-- Alternatives of `\bтрикутн(ик|ика|ику|иком|и)\b`. -/
def triAlts : List (List Char) :=
  ["трикутник".toList, "трикутника".toList, "трикутнику".toList,
   "трикутником".toList, "трикутни".toList]

/-- Alternatives of `\bПров(ести|едено)\b`. -/
def connectAlts : List (List Char) :=
  ["Провести".toList, "Проведено".toList]

/-- Alternatives of `\bвідріз(ок|ка|ку|ком|ки)\b`. -/
def lineAlts : List (List Char) :=
  ["відрізок".toList, "відрізка".toList, "відрізку".toList,
   "відрізком".toList, "відрізки".toList]

/-- A keyword regex `\bSTEM(alt1|alt2|...)\b` at one position: with a word
boundary before, the first alternative (regex alternation order) that is a
prefix here and is followed by a word boundary. -/
def keywordStep (alts : List (List Char)) (prev : Option Char) (here : List Char) :
    Option (List Char) :=
  if prevNonWord prev then
    alts.find? fun a => a.isPrefixOf here && boundaryAfterOk (here.drop a.length)
  else none

/-- The `[A-Z]` regex at one position: a single ASCII capital letter. -/
def idStep (_ : Option Char) (here : List Char) : Option (List Char) :=
  match here with
  | c :: _ => if 'A' ≤ c && c ≤ 'Z' then some [c] else none
  | [] => none

/-- A single-character regex (`\(`, `\)`, `,`, `\.`) at one position. -/
def charStep (ch : Char) (_ : Option Char) (here : List Char) : Option (List Char) :=
  match here with
  | c :: _ => if c == ch then some [c] else none
  | [] => none

/-- The optional `(\.\d+)?` suffix of the NUMBER regex: a dot followed by at
least one digit, or nothing. -/
def fracPart (rest : List Char) : List Char :=
  match rest with
  | '.' :: r2 =>
    match r2.takeWhile Char.isDigit with
    | [] => []
    | ds => '.' :: ds
  | _ => []

/-- The `-?\d+(\.\d+)?` regex at one position (digits are ASCII, the only
digits in the recognized vocabulary). -/
def numberStep (_ : Option Char) (here : List Char) : Option (List Char) :=
  match here with
  | '-' :: rest =>
    match rest.takeWhile Char.isDigit with
    | [] => none
    | ds => some ('-' :: (ds ++ fracPart (rest.dropWhile Char.isDigit)))
  | _ =>
    match here.takeWhile Char.isDigit with
    | [] => none
    | ds => some (ds ++ fracPart (here.dropWhile Char.isDigit))

/-- `re.finditer` for one pattern: scan left to right, emit each match with
its start offset, and resume after the matched text (non-overlapping matches
of the same pattern).  `prev` is the character before the current position,
for the word-boundary assertions; `fuel` (the text length at the first call)
bounds the recursion, every step consuming at least one unit. -/
def runScan (step : Option Char → List Char → Option (List Char)) :
    Nat → Option Char → Nat → List Char → List (Nat × List Char)
  | 0, _, _, _ => []
  | _ + 1, _, _, [] => []
  | fuel + 1, prev, i, c :: rest =>
    match step prev (c :: rest) with
    | some lex =>
      (i, lex) :: runScan step fuel lex.getLast? (i + lex.length) ((c :: rest).drop lex.length)
    | none => runScan step fuel (some c) (i + 1) rest

/-- The ordered pattern list of `Lexer.tokenize`, in source order. -/
def patterns : List (TokType × (Option Char → List Char → Option (List Char))) :=
  [ (TokType.PLACE, keywordStep placeAlts),
    (TokType.POINT, keywordStep pointAlts),
    (TokType.BUILD, keywordStep buildAlts),
    (TokType.RECTANGLE, keywordStep rectAlts),
    (TokType.TRIANGLE, keywordStep triAlts),
    (TokType.CONNECT, keywordStep connectAlts),
    (TokType.LINE, keywordStep lineAlts),
    (TokType.ID, idStep),
    (TokType.LPAREN, charStep '('),
    (TokType.RPAREN, charStep ')'),
    (TokType.COMMA, charStep ','),
    (TokType.NUMBER, numberStep),
    (TokType.DOT, charStep '.') ]

/-- All `(token_type, match.group(), match.start())` triples appended pattern
by pattern, exactly as the double loop of `Lexer.tokenize` collects them. -/
def allMatches (text : List Char) : List (TokType × List Char × Nat) :=
  patterns.foldl
    (fun acc pt =>
      acc ++ (runScan pt.2 text.length none 0 text).map fun m => (pt.1, m.2, m.1))
    []

/-- Stable insertion used to model Python's stable `list.sort(key=offset)`:
the new element goes after every already-placed element with offset ≤ its own. -/
def insertByStart (x : TokType × List Char × Nat) :
    List (TokType × List Char × Nat) → List (TokType × List Char × Nat)
  | [] => [x]
  | y :: ys => if y.2.2 ≤ x.2.2 then y :: insertByStart x ys else x :: y :: ys

/-- Stable sort by start offset (Python `self.tokens.sort(key=lambda x: x[2])`). -/
def sortByStart (l : List (TokType × List Char × Nat)) :
    List (TokType × List Char × Nat) :=
  l.foldl (fun acc x => insertByStart x acc) []

/-- The `Lexer` object: its constructor stores the text and an empty token
list (`self.tokens = []`, `self.current_pos = 0`). -/
structure Lexer where
  text : List Char
  tokens : List (TokType × List Char × Nat)
  current_pos : Nat

/-- `Lexer.__init__`. -/
def Lexer.init (text : List Char) : Lexer :=
  { text := text, tokens := [], current_pos := 0 }

/-- `Lexer.tokenize`: append every pattern's matches to `self.tokens`, sort
by start offset, and return the `(kind, lexeme)` pairs with offsets dropped. -/
def Lexer.tokenize (l : Lexer) : List (TokType × List Char) × Lexer :=
  let sorted := sortByStart (l.tokens ++ allMatches l.text)
  (sorted.map fun t => (t.1, t.2.1), { l with tokens := sorted })

/-- The sorted `(kind, lexeme, offset)` list held by a fresh lexer after
`tokenize` (the value of `self.tokens` at the `return`). -/
def tokenizeAux (text : List Char) : List (TokType × List Char × Nat) :=
  ((Lexer.init text).tokenize).2.tokens

/-- `Lexer(text).tokenize()` for a string input. -/
def tokenizeText (s : String) : List (TokType × List Char) :=
  ((Lexer.init s.toList).tokenize).1

/-- `PointNode(name, x, y)`; the Python `float` coordinates are modelled as
exact rationals. -/
structure PointNode where
  name : List Char
  x : ℚ
  y : ℚ
deriving DecidableEq, Repr

instance : Inhabited PointNode := ⟨⟨[], 0, 0⟩⟩

/-- The scene nodes `PointNode`, `RectangleNode`, `TriangleNode`, `LineNode`. -/
inductive Node
  | point : PointNode → Node
  | rect : List PointNode → Node
  | tri : List PointNode → Node
  | line : PointNode → PointNode → Node
deriving DecidableEq, Repr

/-- The ways a parse aborts in `src/main.py`:
* `wrongToken expected got pos` — the `SyntaxError` raised by `Parser.consume`
  on a kind mismatch, with the expected kind, the actual kind and the cursor;
* `unexpectedTok got` — the `SyntaxError("Unexpected token: ...")` of the
  top-level dispatch;
* `undefinedRef names` — the `ValueError("One or more points are not
  defined: ...")` of the shape/line rules, with the names it interpolates;
* `collinearErr names` — the `ValueError` raised for a collinear triangle;
* `indexErr` — a Python `IndexError` from indexing `self.tokens` out of
  range (not one of the documented error kinds). -/
inductive Err
  | wrongToken (expected : TokType) (got : TokType) (pos : Nat)
  | unexpectedTok (got : TokType)
  | undefinedRef (names : List (List Char))
  | collinearErr (names : List (List Char))
  | indexErr
deriving DecidableEq, Repr

instance {ε α : Type} [DecidableEq ε] [DecidableEq α] : DecidableEq (Except ε α) :=
  fun a b =>
    match a, b with
    | Except.error e, Except.error f =>
      if h : e = f then isTrue (by rw [h])
      else isFalse (by intro hh; injection hh; exact h (by assumption))
    | Except.error _, Except.ok _ => isFalse (by intro hh; exact Except.noConfusion hh)
    | Except.ok _, Except.error _ => isFalse (by intro hh; exact Except.noConfusion hh)
    | Except.ok a, Except.ok b =>
      if h : a = b then isTrue (by rw [h])
      else isFalse (by intro hh; injection hh; exact h (by assumption))

/-- The `Parser` object: the token list, the cursor `self.pos`, the point
registry `self.built_points` (a dict modelled as an association list where
the most recent insertion is found first), and the injected randomness
oracle with the count of draws made so far. -/
structure Parser where
  tokens : List (TokType × List Char)
  pos : Nat
  built_points : List (List Char × PointNode)
  rand : Nat → ℚ × ℚ
  rcount : Nat

/-- Dict lookup in `self.built_points`: the most recently stored point for a
name, if any (`name in self.built_points` is `isSome` of this). -/
def dictLookup (d : List (List Char × PointNode)) (k : List Char) : Option PointNode :=
  (d.find? fun e => e.1 == k).map fun e => e.2

/-- `Parser.consume`: if the cursor is in range and the token kind matches,
return the lexeme and advance; on a kind mismatch raise the `SyntaxError`
carrying expected kind, actual kind and cursor; past the end of the tokens
the `raise` line itself indexes `self.tokens[self.pos]`, an `IndexError`. -/
def consume (p : Parser) (ty : TokType) : Except Err (List Char × Parser) :=
  match p.tokens.drop p.pos with
  | [] => Except.error Err.indexErr
  | t :: _ =>
    if t.1 = ty then Except.ok (t.2, { p with pos := p.pos + 1 })
    else Except.error (Err.wrongToken ty t.1 p.pos)

/-- `Parser.random_coordinates`: the two `random.uniform(-10, 10)` draws,
modelled as the next pair of the injected oracle. -/
def randomCoordinates (p : Parser) : (ℚ × ℚ) × Parser :=
  (p.rand p.rcount, { p with rcount := p.rcount + 1 })

/-- `Parser.check_collinearity`: `abs(p1.x*(p2.y-p3.y) + p2.x*(p3.y-p1.y) +
p3.x*(p1.y-p2.y)) == 0`. -/
def check_collinearity (q1 q2 q3 : PointNode) : Bool :=
  decide (|q1.x * (q2.y - q3.y) + q2.x * (q3.y - q1.y) + q3.x * (q1.y - q2.y)| = 0)

/-- Digits of a NUMBER lexeme to a natural number. -/
def digitsToNat (ds : List Char) : Nat :=
  ds.foldl (fun n c => 10 * n + (c.toNat - 48)) 0

/-- An unsigned NUMBER lexeme (`\d+(\.\d+)?`) as a rational. -/
def parseUnsigned (s : List Char) : ℚ :=
  let intPart := s.takeWhile Char.isDigit
  match s.dropWhile Char.isDigit with
  | '.' :: frac => (digitsToNat intPart : ℚ) + (digitsToNat frac : ℚ) / ((10 : ℚ) ^ frac.length)
  | _ => (digitsToNat intPart : ℚ)

/-- Python `float(x)` on a NUMBER lexeme (shape `-?\d+(\.\d+)?`), as an exact
rational. -/
def parseNumber (s : List Char) : ℚ :=
  match s with
  | '-' :: rest => -(parseUnsigned rest)
  | _ => parseUnsigned s

/-- The inner `while ... DOT: consume` loop of `Parser.parse_points`; `fuel`
bounds the recursion (each step consumes a token). -/
def skipDots : Nat → Parser → Except Err Parser
  | 0, p => Except.ok p
  | fuel + 1, p =>
    match p.tokens.drop p.pos with
    | (TokType.DOT, _) :: _ => do
      let (_, p1) ← consume p TokType.DOT
      skipDots fuel p1
    | _ => Except.ok p

/-- The coordinate branch of `Parser.parse_points`: an explicit
`( NUMBER , NUMBER )` group if an LPAREN is next, else two random draws. -/
def readCoords (p : Parser) : Except Err ((ℚ × ℚ) × Parser) :=
  match p.tokens.drop p.pos with
  | (TokType.LPAREN, _) :: _ => do
    let (_, p1) ← consume p TokType.LPAREN
    let (xs, p2) ← consume p1 TokType.NUMBER
    let (_, p3) ← consume p2 TokType.COMMA
    let (ys, p4) ← consume p3 TokType.NUMBER
    let (_, p5) ← consume p4 TokType.RPAREN
    pure ((parseNumber xs, parseNumber ys), p5)
  | _ => pure (randomCoordinates p)

/-- The `while ... POINT` loop of `Parser.parse_points`: one iteration
consumes `POINT ID DOT* coord-opt`, registers and accumulates the point,
stops after a DOT terminator (`break`), continues past a COMMA, and
otherwise re-checks the loop condition. -/
def pointsLoop : Nat → Parser → List PointNode → Except Err (List PointNode × Parser)
  | 0, p, acc => Except.ok (acc, p)
  | fuel + 1, p, acc =>
    match p.tokens.drop p.pos with
    | (TokType.POINT, _) :: _ => do
      let (_, p1) ← consume p TokType.POINT
      let (name, p2) ← consume p1 TokType.ID
      let p3 ← skipDots (p2.tokens.length + 1) p2
      let (xy, p4) ← readCoords p3
      let pt : PointNode := ⟨name, xy.1, xy.2⟩
      let p5 := { p4 with built_points := (name, pt) :: p4.built_points }
      let acc1 := acc ++ [pt]
      match p5.tokens.drop p5.pos with
      | (TokType.DOT, _) :: _ => do
        let (_, p6) ← consume p5 TokType.DOT
        pure (acc1, p6)
      | (TokType.COMMA, _) :: _ => do
        let (_, p6) ← consume p5 TokType.COMMA
        pointsLoop fuel p6 acc1
      | _ => pointsLoop fuel p5 acc1
    | _ => Except.ok (acc, p)

/-- `Parser.parse_points`: consume PLACE, then the point-declaration loop. -/
def parse_points (p : Parser) : Except Err (List PointNode × Parser) := do
  let (_, p1) ← consume p TokType.PLACE
  pointsLoop (p1.tokens.length + 1) p1 []

/-- `Parser.parse_rectangle`: `BUILD RECTANGLE ID ID ID ID`; if any name is
unregistered, the `ValueError` lists the whole `points` list; otherwise the
four resolved points form a `RectangleNode`. -/
def parse_rectangle (p : Parser) : Except Err (Node × Parser) := do
  let (_, p1) ← consume p TokType.BUILD
  let (_, p2) ← consume p1 TokType.RECTANGLE
  let (n1, p3) ← consume p2 TokType.ID
  let (n2, p4) ← consume p3 TokType.ID
  let (n3, p5) ← consume p4 TokType.ID
  let (n4, p6) ← consume p5 TokType.ID
  let names := [n1, n2, n3, n4]
  if names.any fun n => (dictLookup p6.built_points n).isNone then
    Except.error (Err.undefinedRef names)
  else
    Except.ok (Node.rect (names.map fun n => (dictLookup p6.built_points n).getD default), p6)

/-- `Parser.parse_triangle`: `BUILD TRIANGLE ID ID ID`; undefined-name check
listing the whole `points` list, then the collinearity check. -/
def parse_triangle (p : Parser) : Except Err (Node × Parser) := do
  let (_, p1) ← consume p TokType.BUILD
  let (_, p2) ← consume p1 TokType.TRIANGLE
  let (n1, p3) ← consume p2 TokType.ID
  let (n2, p4) ← consume p3 TokType.ID
  let (n3, p5) ← consume p4 TokType.ID
  let names := [n1, n2, n3]
  if names.any fun n => (dictLookup p5.built_points n).isNone then
    Except.error (Err.undefinedRef names)
  else
    let q1 := (dictLookup p5.built_points n1).getD default
    let q2 := (dictLookup p5.built_points n2).getD default
    let q3 := (dictLookup p5.built_points n3).getD default
    if check_collinearity q1 q2 q3 then Except.error (Err.collinearErr names)
    else Except.ok (Node.tri [q1, q2, q3], p5)

/-- `Parser.parse_line`: `CONNECT LINE ID COMMA ID`; the undefined-name
`ValueError` interpolates both names. -/
def parse_line (p : Parser) : Except Err (Node × Parser) := do
  let (_, p1) ← consume p TokType.CONNECT
  let (_, p2) ← consume p1 TokType.LINE
  let (n1, p3) ← consume p2 TokType.ID
  let (_, p4) ← consume p3 TokType.COMMA
  let (n2, p5) ← consume p4 TokType.ID
  if (dictLookup p5.built_points n1).isNone || (dictLookup p5.built_points n2).isNone then
    Except.error (Err.undefinedRef [n1, n2])
  else
    Except.ok (Node.line ((dictLookup p5.built_points n1).getD default)
      ((dictLookup p5.built_points n2).getD default), p5)

/-- One iteration of the `while` loop of `Parser.parse`: dispatch on the
token under the cursor, returning the nodes this statement emits.  In the
BUILD branches the Python condition indexes `self.tokens[self.pos + 1]`
before any bounds check, an `IndexError` when BUILD is the last token. -/
def parse_step (p : Parser) : Except Err (List Node × Parser) :=
  match p.tokens.drop p.pos with
  | [] => Except.ok ([], p)
  | (ty, _) :: rest =>
    match ty with
    | TokType.PLACE => do
      let (pts, p1) ← parse_points p
      pure (pts.map Node.point, p1)
    | TokType.BUILD =>
      match rest with
      | [] => Except.error Err.indexErr
      | (t2, _) :: _ =>
        if t2 = TokType.RECTANGLE then do
          let (n, p1) ← parse_rectangle p
          pure ([n], p1)
        else if t2 = TokType.TRIANGLE then do
          let (n, p1) ← parse_triangle p
          pure ([n], p1)
        else Except.error (Err.unexpectedTok TokType.BUILD)
    | TokType.CONNECT => do
      let (n, p1) ← parse_line p
      pure ([n], p1)
    | TokType.DOT => do
      let (_, p1) ← consume p TokType.DOT
      pure ([], p1)
    | other => Except.error (Err.unexpectedTok other)

/-- The `while self.pos < len(self.tokens)` loop of `Parser.parse`,
accumulating the emitted nodes; the first failing statement aborts the loop
with its error. -/
def parseLoop : Nat → Parser → List Node → Except Err (List Node)
  | 0, _, acc => Except.ok acc
  | fuel + 1, p, acc =>
    match p.tokens.drop p.pos with
    | [] => Except.ok acc
    | _ :: _ =>
      match parse_step p with
      | Except.error e => Except.error e
      | Except.ok (ns, p1) => parseLoop fuel p1 (acc ++ ns)

/-- `Parser.parse`. -/
def Parser.parse (p : Parser) : Except Err (List Node) :=
  parseLoop (p.tokens.length + 1) p []

/-- `Parser(tokens).parse()` with a fresh cursor and registry and the given
randomness oracle. -/
def parseProgram (tokens : List (TokType × List Char)) (rand : Nat → ℚ × ℚ) :
    Except Err (List Node) :=
  Parser.parse { tokens := tokens, pos := 0, built_points := [], rand := rand, rcount := 0 }

/-- A fixed randomness oracle for concrete runs that draw no random point. -/
def zeroRand : Nat → ℚ × ℚ := fun _ => (0, 0)

/-- The sample program of §8 of the specification. -/
def sampleText : String := "Поставити точку A (1,1). Поставити точку B (3,1). Поставити точку C (3,3). Поставте точку D (1,3). Побудувати прямокутник A B C D. Провести відрізок A, C. Побудувати трикутник A B C."

/-! ### Helper lemmas -/

theorem drop_cons_succ {α : Type} {l : List α} {n : Nat} {a : α} {t : List α}
    (h : l.drop n = a :: t) : l.drop (n + 1) = t := by
  rw [← List.drop_drop 1 n l, h]
  rfl

theorem ok_bind {ε α β : Type} (a : α) (f : α → Except ε β) :
    ((Except.ok a : Except ε α) >>= f) = f a := rfl

theorem error_bind {ε α β : Type} (e : ε) (f : α → Except ε β) :
    ((Except.error e : Except ε α) >>= f) = Except.error e := rfl

/-- `consume` on a state given by explicit fields, when the token under the
cursor has the expected kind. -/
theorem consume_eq_ok {toks : List (TokType × List Char)} {pos : Nat}
    {bp : List (List Char × PointNode)} {rnd : Nat → ℚ × ℚ} {rc : Nat}
    {ty : TokType} {v : List Char} {rest : List (TokType × List Char)}
    (h : toks.drop pos = (ty, v) :: rest) :
    consume ⟨toks, pos, bp, rnd, rc⟩ ty = Except.ok (v, ⟨toks, pos + 1, bp, rnd, rc⟩) := by
  unfold consume
  simp only [h, if_true, reduceIte]

/-- `parse_triangle` on a well-formed tri-stmt over three registered points
reduces to the collinearity test on the three resolved points. -/
theorem parse_triangle_eq {p : Parser}
    {w0 w1 n1 n2 n3 : List Char} {rest : List (TokType × List Char)}
    {q1 q2 q3 : PointNode}
    (h : p.tokens.drop p.pos =
      (TokType.BUILD, w0) :: (TokType.TRIANGLE, w1) :: (TokType.ID, n1) ::
      (TokType.ID, n2) :: (TokType.ID, n3) :: rest)
    (h1 : dictLookup p.built_points n1 = some q1)
    (h2 : dictLookup p.built_points n2 = some q2)
    (h3 : dictLookup p.built_points n3 = some q3) :
    parse_triangle p =
      if check_collinearity q1 q2 q3 then Except.error (Err.collinearErr [n1, n2, n3])
      else Except.ok (Node.tri [q1, q2, q3], { p with pos := p.pos + 5 }) := by
  obtain ⟨toks, pos, bp, rnd, rc⟩ := p
  replace h : toks.drop pos = _ := h
  replace h1 : dictLookup bp n1 = some q1 := h1
  replace h2 : dictLookup bp n2 = some q2 := h2
  replace h3 : dictLookup bp n3 = some q3 := h3
  have d1 := drop_cons_succ h
  have d2 := drop_cons_succ d1
  have d3 := drop_cons_succ d2
  have d4 := drop_cons_succ d3
  simp only [parse_triangle, consume_eq_ok h, consume_eq_ok d1, consume_eq_ok d2,
    consume_eq_ok d3, consume_eq_ok d4, ok_bind, h1, h2, h3,
    Option.isNone_some, List.any_cons, List.any_nil, Bool.or_self, Bool.or_false,
    Bool.false_or, Bool.false_eq_true, if_false, reduceIte, Option.getD_some]

/-! ### Claims -/

/-- Token `a`'s span lies inside (distinct) token `b`'s span, in terms of
the `(kind, lexeme, offset)` triples of the sorted token list. -/
def spanInside (a b : TokType × List Char × Nat) : Prop :=
  b.2.2 ≤ a.2.2 ∧ a.2.2 + a.2.1.length ≤ b.2.2 + b.2.1.length ∧ a ≠ b

theorem insertByStart_perm (x : TokType × List Char × Nat)
    (l : List (TokType × List Char × Nat)) :
    List.Perm (insertByStart x l) (x :: l) := by
  induction l with
  | nil => exact List.Perm.refl _
  | cons y ys ih =>
    unfold insertByStart
    by_cases hc : y.2.2 ≤ x.2.2
    · rw [if_pos hc]
      exact (ih.cons y).trans (List.Perm.swap x y ys)
    · rw [if_neg hc]

theorem foldl_insertByStart_perm (l : List (TokType × List Char × Nat)) :
    ∀ acc : List (TokType × List Char × Nat),
      List.Perm (l.foldl (fun acc x => insertByStart x acc) acc) (acc ++ l) := by
  induction l with
  | nil => intro acc; simp
  | cons x xs ih =>
    intro acc
    rw [List.foldl_cons]
    refine (ih (insertByStart x acc)).trans ?_
    refine ((insertByStart_perm x acc).append_right xs).trans ?_
    rw [List.cons_append]
    exact List.perm_middle.symm

/-- C2 counterexample: on the input text 1.5, the tokenizer emits both the
NUMBER token spanning offsets 0–3 and a DOT token at offset 1 whose span
lies strictly inside the NUMBER's — the dot of a decimal number IS emitted
as a separate token, so no priority tie-break discards contained matches. -/
theorem dot_inside_number_emitted :
    tokenizeAux "1.5".toList =
      [(TokType.NUMBER, ['1', '.', '5'], 0), (TokType.DOT, ['.'], 1)] ∧
    ∃ a b, a ∈ tokenizeAux "1.5".toList ∧ b ∈ tokenizeAux "1.5".toList ∧ spanInside a b :=
  ⟨rfl, (TokType.DOT, ['.'], 1), (TokType.NUMBER, ['1', '.', '5'], 0),
    by decide, by decide, by exact ⟨by decide, by decide, by decide⟩⟩

/-- C2 amended: the tokenizer applies no tie-break at all — the emitted
(sorted) token list is a permutation of the multiset of every category's
matches, so same-offset or span-contained matches are all kept, none
discarded. -/
theorem tokenize_discards_no_match (text : List Char) :
    List.Perm (tokenizeAux text) (allMatches text) := by
  have h := foldl_insertByStart_perm (allMatches text) []
  simpa [tokenizeAux, Lexer.tokenize, Lexer.init, sortByStart] using h

/-- C3 (code side of the bug): whenever `Parser.consume` is invoked with the
cursor at or past the end of the token list, the code does NOT produce the
specified `SyntaxError` with expected kind, actual kind and cursor position:
the `raise` line itself indexes `self.tokens[self.pos]` out of range, so the
call fails with an `IndexError` carrying none of that information. -/
theorem consume_out_of_tokens {p : Parser} {ty : TokType}
    (h : p.tokens.length ≤ p.pos) : consume p ty = Except.error Err.indexErr := by
  unfold consume
  rw [List.drop_eq_nil_of_le h]

/-- C3 witness: running out of tokens concretely — after `CONNECT` is
consumed from the single-token input, `consume(LINE)` at position 1 hits the
`IndexError` path. -/
theorem consume_out_of_tokens_witness :
    consume ⟨[(TokType.CONNECT, "Провести".toList)], 1, [], zeroRand, 0⟩ TokType.LINE =
      Except.error Err.indexErr :=
  consume_out_of_tokens (by decide)

/-- C9: tokenizing is a deterministic pure function of the input text — two
`Lexer` objects freshly constructed on the same text return identical token
sequences. -/
theorem tokenize_deterministic {t : List Char} {l1 l2 : Lexer}
    (h1 : l1 = Lexer.init t) (h2 : l2 = Lexer.init t) :
    (Lexer.tokenize l1).1 = (Lexer.tokenize l2).1 := by
  rw [h1, h2]

/-- C9 witness: instantiated at a concrete text. -/
theorem tokenize_deterministic_witness :
    (Lexer.tokenize (Lexer.init "Поставити точку A (1,1).".toList)).1 =
      (Lexer.tokenize (Lexer.init "Поставити точку A (1,1).".toList)).1 :=
  tokenize_deterministic rfl rfl

/-- C10: there is a token sequence whose final token is BUILD on which the
top-level dispatch of `Parser.parse` reads `tokens[pos + 1]` without a bounds
check, so the parse fails with the out-of-range `indexErr`, which is none of
the three specified error kinds (`wrongToken`, `undefinedRef`,
`collinearErr`). -/
theorem trailing_build_index_error :
    ∃ ts : List (TokType × List Char),
      ts.getLast? = some (TokType.BUILD, "Побудувати".toList) ∧
      ∀ r : Nat → ℚ × ℚ, parseProgram ts r = Except.error Err.indexErr :=
  ⟨[(TokType.BUILD, "Побудувати".toList)], rfl, fun _ => rfl⟩

/-- C6 counterexample: the single-token input `PLACE` — a PLACE token
followed by no POINT token — is silently accepted by the whole parse, which
succeeds with zero point declarations (and an empty scene), contradicting
the claim that such a statement is not silently accepted. -/
theorem place_without_point_accepted :
    parseProgram [(TokType.PLACE, "Поставити".toList)] zeroRand = Except.ok [] := rfl

/-- C6 amended: the grammar's `+` is implemented as `*` — when the token
after PLACE is missing or is not POINT, `parse_points` consumes just the
PLACE token and returns the empty list of point declarations, with no
error. -/
theorem place_accepts_zero_declarations {p : Parser} {w : List Char}
    {rest : List (TokType × List Char)}
    (h : p.tokens.drop p.pos = (TokType.PLACE, w) :: rest)
    (h2 : ∀ (v : List Char) (rest2 : List (TokType × List Char)),
      rest ≠ (TokType.POINT, v) :: rest2) :
    parse_points p = Except.ok ([], { p with pos := p.pos + 1 }) := by
  obtain ⟨toks, pos, bp, rnd, rc⟩ := p
  replace h : toks.drop pos = (TokType.PLACE, w) :: rest := h
  have hd : toks.drop (pos + 1) = rest := drop_cons_succ h
  simp only [parse_points, consume_eq_ok h, ok_bind]
  unfold pointsLoop
  simp only [hd]

/-- C6 amended witness: a concrete PLACE token followed by a BUILD token. -/
theorem place_accepts_zero_declarations_witness :
    parse_points ⟨[(TokType.PLACE, "Поставити".toList), (TokType.BUILD, "Побудувати".toList)],
        0, [], zeroRand, 0⟩ =
      Except.ok ([], ⟨[(TokType.PLACE, "Поставити".toList),
        (TokType.BUILD, "Побудувати".toList)], 0 + 1, [], zeroRand, 0⟩) :=
  place_accepts_zero_declarations rfl (by intro v rest2 hh; simp at hh)

/-- C1 counterexample: with only A placed at (1,1), the statement
`BUILD RECTANGLE A B C D` fails with an undefined-reference error listing
all four names A, B, C, D — although A is registered and not missing (the
second conjunct shows references to A alone succeed) — so the message does
not list exactly the missing names B, C, D. -/
theorem undefined_ref_lists_defined_name :
    parseProgram (tokenizeText "Поставити точку A (1,1). Побудувати прямокутник A B C D.")
        zeroRand = Except.error (Err.undefinedRef [['A'], ['B'], ['C'], ['D']]) ∧
    parseProgram (tokenizeText "Поставити точку A (1,1). Побудувати прямокутник A A A A.")
        zeroRand = Except.ok [Node.point ⟨['A'], 1, 1⟩,
          Node.rect [⟨['A'], 1, 1⟩, ⟨['A'], 1, 1⟩, ⟨['A'], 1, 1⟩, ⟨['A'], 1, 1⟩]] :=
  ⟨rfl, rfl⟩

/-- C1 amended: an undefined-reference failure occurs exactly when at least
one referenced name is unregistered, and the error then lists ALL the names
referenced by the statement (a superset of the missing ones, equal to them
only when every referenced name is missing) — for each of the rectangle,
triangle and line rules. -/
theorem undefined_ref_lists_all_statement_names :
    (∀ (p : Parser) (w0 w1 n1 n2 n3 n4 : List Char) (rest : List (TokType × List Char)),
      p.tokens.drop p.pos =
        (TokType.BUILD, w0) :: (TokType.RECTANGLE, w1) :: (TokType.ID, n1) ::
        (TokType.ID, n2) :: (TokType.ID, n3) :: (TokType.ID, n4) :: rest →
      ([n1, n2, n3, n4].any fun n => (dictLookup p.built_points n).isNone) = true →
      parse_rectangle p = Except.error (Err.undefinedRef [n1, n2, n3, n4])) ∧
    (∀ (p : Parser) (w0 w1 n1 n2 n3 : List Char) (rest : List (TokType × List Char)),
      p.tokens.drop p.pos =
        (TokType.BUILD, w0) :: (TokType.TRIANGLE, w1) :: (TokType.ID, n1) ::
        (TokType.ID, n2) :: (TokType.ID, n3) :: rest →
      ([n1, n2, n3].any fun n => (dictLookup p.built_points n).isNone) = true →
      parse_triangle p = Except.error (Err.undefinedRef [n1, n2, n3])) ∧
    (∀ (p : Parser) (w0 w1 w2 n1 n2 : List Char) (rest : List (TokType × List Char)),
      p.tokens.drop p.pos =
        (TokType.CONNECT, w0) :: (TokType.LINE, w1) :: (TokType.ID, n1) ::
        (TokType.COMMA, w2) :: (TokType.ID, n2) :: rest →
      ((dictLookup p.built_points n1).isNone || (dictLookup p.built_points n2).isNone) = true →
      parse_line p = Except.error (Err.undefinedRef [n1, n2])) := by
  refine ⟨?_, ?_, ?_⟩
  · intro p w0 w1 n1 n2 n3 n4 rest h hm
    obtain ⟨toks, pos, bp, rnd, rc⟩ := p
    replace h : toks.drop pos = _ := h
    replace hm : ([n1, n2, n3, n4].any fun n => (dictLookup bp n).isNone) = true := hm
    have d1 := drop_cons_succ h
    have d2 := drop_cons_succ d1
    have d3 := drop_cons_succ d2
    have d4 := drop_cons_succ d3
    have d5 := drop_cons_succ d4
    simp only [parse_rectangle, consume_eq_ok h, consume_eq_ok d1, consume_eq_ok d2,
      consume_eq_ok d3, consume_eq_ok d4, consume_eq_ok d5, ok_bind, hm, if_true, reduceIte]
  · intro p w0 w1 n1 n2 n3 rest h hm
    obtain ⟨toks, pos, bp, rnd, rc⟩ := p
    replace h : toks.drop pos = _ := h
    replace hm : ([n1, n2, n3].any fun n => (dictLookup bp n).isNone) = true := hm
    have d1 := drop_cons_succ h
    have d2 := drop_cons_succ d1
    have d3 := drop_cons_succ d2
    have d4 := drop_cons_succ d3
    simp only [parse_triangle, consume_eq_ok h, consume_eq_ok d1, consume_eq_ok d2,
      consume_eq_ok d3, consume_eq_ok d4, ok_bind, hm, if_true, reduceIte]
  · intro p w0 w1 w2 n1 n2 rest h hm
    obtain ⟨toks, pos, bp, rnd, rc⟩ := p
    replace h : toks.drop pos = _ := h
    replace hm : ((dictLookup bp n1).isNone || (dictLookup bp n2).isNone) = true := hm
    have d1 := drop_cons_succ h
    have d2 := drop_cons_succ d1
    have d3 := drop_cons_succ d2
    have d4 := drop_cons_succ d3
    simp only [parse_line, consume_eq_ok h, consume_eq_ok d1, consume_eq_ok d2,
      consume_eq_ok d3, consume_eq_ok d4, ok_bind, hm, if_true, reduceIte]

/-- C1 amended witness: all three conjuncts applied to concrete statements
over a registry holding only A. -/
theorem undefined_ref_lists_all_statement_names_witness :
    parse_rectangle ⟨[(TokType.BUILD, "Побудувати".toList),
        (TokType.RECTANGLE, "прямокутник".toList), (TokType.ID, ['A']), (TokType.ID, ['B']),
        (TokType.ID, ['C']), (TokType.ID, ['D'])], 0, [(['A'], ⟨['A'], 1, 1⟩)], zeroRand, 0⟩ =
      Except.error (Err.undefinedRef [['A'], ['B'], ['C'], ['D']]) ∧
    parse_triangle ⟨[(TokType.BUILD, "Побудувати".toList),
        (TokType.TRIANGLE, "трикутник".toList), (TokType.ID, ['A']), (TokType.ID, ['B']),
        (TokType.ID, ['C'])], 0, [(['A'], ⟨['A'], 1, 1⟩)], zeroRand, 0⟩ =
      Except.error (Err.undefinedRef [['A'], ['B'], ['C']]) ∧
    parse_line ⟨[(TokType.CONNECT, "Провести".toList), (TokType.LINE, "відрізок".toList),
        (TokType.ID, ['A']), (TokType.COMMA, [',']), (TokType.ID, ['B'])], 0,
        [(['A'], ⟨['A'], 1, 1⟩)], zeroRand, 0⟩ =
      Except.error (Err.undefinedRef [['A'], ['B']]) :=
  ⟨undefined_ref_lists_all_statement_names.1 _ _ _ _ _ _ _ _ rfl (by decide),
   undefined_ref_lists_all_statement_names.2.1 _ _ _ _ _ _ _ rfl (by decide),
   undefined_ref_lists_all_statement_names.2.2 _ _ _ _ _ _ _ rfl (by decide)⟩

/-- C7: for every rect-stmt whose four referenced points are all registered,
a Rectangle node over the four resolved points is emitted — there is no
collinearity or degeneracy check of any kind, so no degenerate-geometry
error can occur, whatever the coordinates are. -/
theorem rectangle_emitted_without_degeneracy_check {p : Parser}
    {w0 w1 n1 n2 n3 n4 : List Char} {rest : List (TokType × List Char)}
    {q1 q2 q3 q4 : PointNode}
    (h : p.tokens.drop p.pos =
      (TokType.BUILD, w0) :: (TokType.RECTANGLE, w1) :: (TokType.ID, n1) ::
      (TokType.ID, n2) :: (TokType.ID, n3) :: (TokType.ID, n4) :: rest)
    (h1 : dictLookup p.built_points n1 = some q1)
    (h2 : dictLookup p.built_points n2 = some q2)
    (h3 : dictLookup p.built_points n3 = some q3)
    (h4 : dictLookup p.built_points n4 = some q4) :
    parse_rectangle p = Except.ok (Node.rect [q1, q2, q3, q4], { p with pos := p.pos + 6 }) := by
  obtain ⟨toks, pos, bp, rnd, rc⟩ := p
  replace h : toks.drop pos = _ := h
  replace h1 : dictLookup bp n1 = some q1 := h1
  replace h2 : dictLookup bp n2 = some q2 := h2
  replace h3 : dictLookup bp n3 = some q3 := h3
  replace h4 : dictLookup bp n4 = some q4 := h4
  have d1 := drop_cons_succ h
  have d2 := drop_cons_succ d1
  have d3 := drop_cons_succ d2
  have d4 := drop_cons_succ d3
  have d5 := drop_cons_succ d4
  simp only [parse_rectangle, consume_eq_ok h, consume_eq_ok d1, consume_eq_ok d2,
    consume_eq_ok d3, consume_eq_ok d4, consume_eq_ok d5, ok_bind, h1, h2, h3, h4,
    Option.isNone_some, List.any_cons, List.any_nil, Bool.or_self, Bool.or_false,
    Bool.false_or, Bool.false_eq_true, if_false, reduceIte, List.map_cons, List.map_nil,
    Option.getD_some]

/-- C7 witness: four registered but pairwise collinear (indeed coincident
and collinear) points still yield a Rectangle node with no error. -/
theorem rectangle_emitted_without_degeneracy_check_witness :
    parse_rectangle ⟨[(TokType.BUILD, "Побудувати".toList),
        (TokType.RECTANGLE, "прямокутник".toList), (TokType.ID, ['A']), (TokType.ID, ['B']),
        (TokType.ID, ['C']), (TokType.ID, ['D'])], 0,
        [(['A'], ⟨['A'], 0, 0⟩), (['B'], ⟨['B'], 1, 1⟩), (['C'], ⟨['C'], 2, 2⟩),
         (['D'], ⟨['D'], 3, 3⟩)], zeroRand, 0⟩ =
      Except.ok (Node.rect [⟨['A'], 0, 0⟩, ⟨['B'], 1, 1⟩, ⟨['C'], 2, 2⟩, ⟨['D'], 3, 3⟩],
        ⟨[(TokType.BUILD, "Побудувати".toList),
          (TokType.RECTANGLE, "прямокутник".toList), (TokType.ID, ['A']), (TokType.ID, ['B']),
          (TokType.ID, ['C']), (TokType.ID, ['D'])], 0 + 6,
          [(['A'], ⟨['A'], 0, 0⟩), (['B'], ⟨['B'], 1, 1⟩), (['C'], ⟨['C'], 2, 2⟩),
           (['D'], ⟨['D'], 3, 3⟩)], zeroRand, 0⟩) :=
  rectangle_emitted_without_degeneracy_check rfl rfl rfl rfl rfl

/-- C4: a tri-stmt over three registered points fails with the
degenerate-geometry error (carrying the three names) if and only if the
signed-area expression of the three resolved points is exactly zero;
otherwise a Triangle node over those points is emitted. -/
theorem triangle_degenerate_iff_zero_area {p : Parser}
    {w0 w1 n1 n2 n3 : List Char} {rest : List (TokType × List Char)}
    {q1 q2 q3 : PointNode}
    (h : p.tokens.drop p.pos =
      (TokType.BUILD, w0) :: (TokType.TRIANGLE, w1) :: (TokType.ID, n1) ::
      (TokType.ID, n2) :: (TokType.ID, n3) :: rest)
    (h1 : dictLookup p.built_points n1 = some q1)
    (h2 : dictLookup p.built_points n2 = some q2)
    (h3 : dictLookup p.built_points n3 = some q3) :
    (parse_triangle p = Except.error (Err.collinearErr [n1, n2, n3]) ↔
      q1.x * (q2.y - q3.y) + q2.x * (q3.y - q1.y) + q3.x * (q1.y - q2.y) = 0) ∧
    (q1.x * (q2.y - q3.y) + q2.x * (q3.y - q1.y) + q3.x * (q1.y - q2.y) ≠ 0 →
      parse_triangle p = Except.ok (Node.tri [q1, q2, q3], { p with pos := p.pos + 5 })) := by
  have hred := parse_triangle_eq h h1 h2 h3
  by_cases hz : q1.x * (q2.y - q3.y) + q2.x * (q3.y - q1.y) + q3.x * (q1.y - q2.y) = 0
  · have hc : check_collinearity q1 q2 q3 = true := by
      simp [check_collinearity, hz]
    rw [hc] at hred
    simp only [if_true, reduceIte] at hred
    exact ⟨by simp [hred, hz], fun hnz => absurd hz hnz⟩
  · have hc : check_collinearity q1 q2 q3 = false := by
      simp [check_collinearity, abs_eq_zero, hz]
    rw [hc] at hred
    simp only [Bool.false_eq_true, if_false, reduceIte] at hred
    constructor
    · rw [hred]
      constructor
      · intro hcontr
        exact Except.noConfusion hcontr
      · intro hzz
        exact absurd hzz hz
    · intro _
      rw [hred]

/-- C4 witness: the collinear triple A(0,0), B(1,1), C(2,2) makes the
tri-stmt fail with the degenerate-geometry error. -/
theorem triangle_degenerate_iff_zero_area_witness :
    parse_triangle ⟨[(TokType.BUILD, "Побудувати".toList),
        (TokType.TRIANGLE, "трикутник".toList), (TokType.ID, ['A']), (TokType.ID, ['B']),
        (TokType.ID, ['C'])], 0,
        [(['A'], ⟨['A'], 0, 0⟩), (['B'], ⟨['B'], 1, 1⟩), (['C'], ⟨['C'], 2, 2⟩)],
        zeroRand, 0⟩ =
      Except.error (Err.collinearErr [['A'], ['B'], ['C']]) := by
  have h : (⟨[(TokType.BUILD, "Побудувати".toList),
      (TokType.TRIANGLE, "трикутник".toList), (TokType.ID, ['A']), (TokType.ID, ['B']),
      (TokType.ID, ['C'])], 0,
      [(['A'], ⟨['A'], 0, 0⟩), (['B'], ⟨['B'], 1, 1⟩), (['C'], ⟨['C'], 2, 2⟩)],
      zeroRand, 0⟩ : Parser).tokens.drop
      (⟨[(TokType.BUILD, "Побудувати".toList),
      (TokType.TRIANGLE, "трикутник".toList), (TokType.ID, ['A']), (TokType.ID, ['B']),
      (TokType.ID, ['C'])], 0,
      [(['A'], ⟨['A'], 0, 0⟩), (['B'], ⟨['B'], 1, 1⟩), (['C'], ⟨['C'], 2, 2⟩)],
      zeroRand, 0⟩ : Parser).pos =
      (TokType.BUILD, "Побудувати".toList) :: (TokType.TRIANGLE, "трикутник".toList) ::
      (TokType.ID, ['A']) :: (TokType.ID, ['B']) :: (TokType.ID, ['C']) :: [] := rfl
  exact (triangle_degenerate_iff_zero_area h rfl rfl rfl).1.mpr (by norm_num)

/-- The four points the sample program places. -/
def pA : PointNode := ⟨['A'], 1, 1⟩

/-- Point B of the sample program. -/
def pB : PointNode := ⟨['B'], 3, 1⟩

/-- Point C of the sample program. -/
def pC : PointNode := ⟨['C'], 3, 3⟩

/-- Point D of the sample program. -/
def pD : PointNode := ⟨['D'], 1, 3⟩

/-- The 55 tokens of the sample program, as the lexer produces them. -/
def sampleToks : List (TokType × List Char) :=
  [(TokType.PLACE, "Поставити".toList), (TokType.POINT, "точку".toList), (TokType.ID, ['A']),
   (TokType.LPAREN, ['(']), (TokType.NUMBER, ['1']), (TokType.COMMA, [',']),
   (TokType.NUMBER, ['1']), (TokType.RPAREN, [')']), (TokType.DOT, ['.']),
   (TokType.PLACE, "Поставити".toList), (TokType.POINT, "точку".toList), (TokType.ID, ['B']),
   (TokType.LPAREN, ['(']), (TokType.NUMBER, ['3']), (TokType.COMMA, [',']),
   (TokType.NUMBER, ['1']), (TokType.RPAREN, [')']), (TokType.DOT, ['.']),
   (TokType.PLACE, "Поставити".toList), (TokType.POINT, "точку".toList), (TokType.ID, ['C']),
   (TokType.LPAREN, ['(']), (TokType.NUMBER, ['3']), (TokType.COMMA, [',']),
   (TokType.NUMBER, ['3']), (TokType.RPAREN, [')']), (TokType.DOT, ['.']),
   (TokType.PLACE, "Поставте".toList), (TokType.POINT, "точку".toList), (TokType.ID, ['D']),
   (TokType.LPAREN, ['(']), (TokType.NUMBER, ['1']), (TokType.COMMA, [',']),
   (TokType.NUMBER, ['3']), (TokType.RPAREN, [')']), (TokType.DOT, ['.']),
   (TokType.BUILD, "Побудувати".toList), (TokType.RECTANGLE, "прямокутник".toList),
   (TokType.ID, ['A']), (TokType.ID, ['B']), (TokType.ID, ['C']), (TokType.ID, ['D']),
   (TokType.DOT, ['.']),
   (TokType.CONNECT, "Провести".toList), (TokType.LINE, "відрізок".toList),
   (TokType.ID, ['A']), (TokType.COMMA, [',']), (TokType.ID, ['C']), (TokType.DOT, ['.']),
   (TokType.BUILD, "Побудувати".toList), (TokType.TRIANGLE, "трикутник".toList),
   (TokType.ID, ['A']), (TokType.ID, ['B']), (TokType.ID, ['C']), (TokType.DOT, ['.'])]

/-- The registry after the four place statements (most recent first). -/
def sampleRegistry : List (List Char × PointNode) :=
  [(['D'], pD), (['C'], pC), (['B'], pB), (['A'], pA)]

/-- The scene nodes emitted before the triangle statement of the sample. -/
def sampleAcc6 : List Node :=
  [Node.point pA, Node.point pB, Node.point pC, Node.point pD,
   Node.rect [pA, pB, pC, pD], Node.line pA pC]

set_option maxRecDepth 10000 in
/-- C5: tokenizing and then parsing the §8 sample input succeeds and yields
exactly, in order: Points A(1,1), B(3,1), C(3,3), D(1,3), then
Rectangle[A,B,C,D], then Line(A,C), then Triangle[A,B,C] — for every
randomness oracle, since every point carries explicit coordinates. -/
theorem sample_input_scene (r : Nat → ℚ × ℚ) :
    parseProgram (tokenizeText sampleText) r =
      Except.ok [Node.point ⟨['A'], 1, 1⟩, Node.point ⟨['B'], 3, 1⟩,
        Node.point ⟨['C'], 3, 3⟩, Node.point ⟨['D'], 1, 3⟩,
        Node.rect [⟨['A'], 1, 1⟩, ⟨['B'], 3, 1⟩, ⟨['C'], 3, 3⟩, ⟨['D'], 1, 3⟩],
        Node.line ⟨['A'], 1, 1⟩ ⟨['C'], 3, 3⟩,
        Node.tri [⟨['A'], 1, 1⟩, ⟨['B'], 3, 1⟩, ⟨['C'], 3, 3⟩]] := by
  have ht : tokenizeText sampleText = sampleToks := rfl
  have hpre : parseProgram sampleToks r =
      parseLoop (47 + 1) ⟨sampleToks, 49, sampleRegistry, r, 0⟩ sampleAcc6 := rfl
  have h49 : (⟨sampleToks, 49, sampleRegistry, r, 0⟩ : Parser).tokens.drop
      (⟨sampleToks, 49, sampleRegistry, r, 0⟩ : Parser).pos =
      (TokType.BUILD, "Побудувати".toList) :: (TokType.TRIANGLE, "трикутник".toList) ::
      (TokType.ID, ['A']) :: (TokType.ID, ['B']) :: (TokType.ID, ['C']) ::
      [(TokType.DOT, ['.'])] := rfl
  have hA : dictLookup (⟨sampleToks, 49, sampleRegistry, r, 0⟩ : Parser).built_points ['A'] =
      some pA := rfl
  have hB : dictLookup (⟨sampleToks, 49, sampleRegistry, r, 0⟩ : Parser).built_points ['B'] =
      some pB := rfl
  have hC : dictLookup (⟨sampleToks, 49, sampleRegistry, r, 0⟩ : Parser).built_points ['C'] =
      some pC := rfl
  have hcol : check_collinearity pA pB pC = false := by
    simp [check_collinearity, pA, pB, pC]
    norm_num
  have htri : parse_triangle ⟨sampleToks, 49, sampleRegistry, r, 0⟩ =
      Except.ok (Node.tri [pA, pB, pC], ⟨sampleToks, 54, sampleRegistry, r, 0⟩) := by
    rw [parse_triangle_eq h49 hA hB hC, hcol]
    rfl
  have hstep : parse_step ⟨sampleToks, 49, sampleRegistry, r, 0⟩ =
      Except.ok ([Node.tri [pA, pB, pC]], ⟨sampleToks, 54, sampleRegistry, r, 0⟩) := by
    unfold parse_step
    rw [h49]
    simp only [reduceIte, htri, ok_bind]
    rw [if_neg (by decide)]
    rfl
  have hmid : parseLoop (47 + 1) ⟨sampleToks, 49, sampleRegistry, r, 0⟩ sampleAcc6 =
      parseLoop 47 ⟨sampleToks, 54, sampleRegistry, r, 0⟩
        (sampleAcc6 ++ [Node.tri [pA, pB, pC]]) := by
    unfold parseLoop
    rw [h49, hstep]
    rfl
  have hpost : parseLoop 47 ⟨sampleToks, 54, sampleRegistry, r, 0⟩
      (sampleAcc6 ++ [Node.tri [pA, pB, pC]]) =
      Except.ok [Node.point pA, Node.point pB, Node.point pC, Node.point pD,
        Node.rect [pA, pB, pC, pD], Node.line pA pC, Node.tri [pA, pB, pC]] := rfl
  rw [ht]
  exact hpre.trans (hmid.trans hpost)

/-- C8: parsing is all-or-nothing — if the statement at the cursor fails
with any error, the whole parse loop returns exactly that error, discarding
every node accumulated so far; in particular no partial node list is ever
returned. -/
theorem first_failure_aborts_parse {fuel : Nat} {p : Parser} {acc : List Node}
    {e : Err} {t : TokType × List Char} {ts2 : List (TokType × List Char)}
    (h : p.tokens.drop p.pos = t :: ts2) (hs : parse_step p = Except.error e) :
    parseLoop (fuel + 1) p acc = Except.error e ∧
      ∀ ns : List Node, parseLoop (fuel + 1) p acc ≠ Except.ok ns := by
  have hl : parseLoop (fuel + 1) p acc = Except.error e := by
    unfold parseLoop
    rw [h, hs]
  refine ⟨hl, fun ns hns => ?_⟩
  rw [hl] at hns
  exact Except.noConfusion hns

/-- C8 witness: a failing first statement (a bare ID token) aborts a loop
run that had already accumulated a node, returning the error and not the
accumulated partial scene. -/
theorem first_failure_aborts_parse_witness :
    parseLoop (0 + 1) ⟨[(TokType.ID, ['A'])], 0, [], zeroRand, 0⟩
        [Node.point ⟨['Z'], 0, 0⟩] =
      Except.error (Err.unexpectedTok TokType.ID) := by
  have h : (⟨[(TokType.ID, ['A'])], 0, [], zeroRand, 0⟩ : Parser).tokens.drop
      (⟨[(TokType.ID, ['A'])], 0, [], zeroRand, 0⟩ : Parser).pos =
      (TokType.ID, ['A']) :: [] := rfl
  have hs : parse_step ⟨[(TokType.ID, ['A'])], 0, [], zeroRand, 0⟩ =
      Except.error (Err.unexpectedTok TokType.ID) := rfl
  exact (first_failure_aborts_parse h hs).1

end GeoScene
